import Mathlib

/-!
Verification of the Document Intake & Classification Pipeline of the
SLUSD-Api repository (src/services/doc_service.py, src/services/sped_service.py,
src/iep_at_a_glance.py, src/config.py).

The Python code is shallowly embedded: database tables become lists of row
structures, each SQL statement becomes the list transformation it performs,
and the per-segment upload loops become folds over the batch.  Python strings
are modelled as `List Char` so that every operation is executable and
kernel-reducible on concrete inputs.
-/

/-! ## Python string primitives

Strings are `List Char`.  The operations below follow the semantics of the
Python string methods used by the pipeline (on the ASCII data the pipeline
manipulates; `Char.isAlpha`/`Char.isDigit` are the ASCII classifiers).
-/

abbrev PyStr := List Char

/-- Turns a Lean string literal into the `List Char` model of a Python string. -/
def pstr (s : String) : PyStr := s.toList

/-- Python `s.split(sep)` for a one-character separator (used as `split('/')`). -/
def pySplitOn (sep : Char) : PyStr → List PyStr
  | [] => [[]]
  | c :: rest =>
    match pySplitOn sep rest with
    | [] => [[]]
    | w :: ws => if c = sep then [] :: w :: ws else (c :: w) :: ws

/-- Python `s.startswith(pre)`. -/
def pyStartsWith : PyStr → PyStr → Bool
  | [], _ => true
  | _ :: _, [] => false
  | c :: cs, d :: ds => c == d && pyStartsWith cs ds

/-- Python `int(s)` on the identifier strings the splitter produces: those are
either all-digit strings (regex `\d{5,6}`/`\d+` captures) or `unknown_`-prefixed
placeholders; `int` succeeds exactly on the former.  `none` models the
`ValueError` raised on the latter. -/
def pyToNat? (l : PyStr) : Option Nat :=
  if l = [] then none
  else if l.all Char.isDigit then
    some (l.foldl (fun n c => 10 * n + (c.toNat - 48)) 0)
  else none

/-- Python `s.replace(old, new)` for one-character arguments
(used as `replace('/', '-')`). -/
def pyReplaceChar (old new : Char) (l : PyStr) : PyStr :=
  l.map (fun c => if c = old then new else c)

/-- Python `s.zfill(w)`: left-pad with `'0'` up to width `w`, keeping a leading
sign character in front of the padding. -/
def pyZfill (l : PyStr) (w : Nat) : PyStr :=
  if w ≤ l.length then l
  else
    let pad := List.replicate (w - l.length) '0'
    match l with
    | c :: rest => if c = '-' ∨ c = '+' then c :: (pad ++ rest) else pad ++ l
    | [] => pad

/-- Python `s.split()` with no argument: split on runs of whitespace,
discarding empty pieces. -/
def pySplitWs (l : PyStr) : List PyStr :=
  (l.splitOnP Char.isWhitespace).filter (fun w => w ≠ [])

/-! ## Data model

`DocRow` embeds the columns of the Aeries `DOC` table that the pipeline reads
or writes and that the claims are about: `ID`, `SQ`, `CT`, `NM`, `GR`, `SZ`
and the soft-deletion flag `DEL`.  The `INSERT INTO DOC` statements of the
source do not list `DEL`, so an inserted row is active (`DEL = 0`).
`StuRow` embeds the columns of the student roster table `STU` used by
`_get_student_grade`: `ID`, `GR`, `TG`, `DEL`. -/

structure DocRow where
  id : Nat
  sq : Nat
  ct : PyStr
  nm : PyStr
  gr : PyStr
  sz : Nat
  del : Bool
  deriving Repr, DecidableEq

abbrev DocTable := List DocRow

structure StuRow where
  id : Nat
  gr : PyStr
  tg : PyStr
  del : Bool
  deriving Repr, DecidableEq

abbrev Roster := List StuRow

/-! ## Database helper operations (doc_service.py / sped_service.py / iep_at_a_glance.py)

The three modules duplicate the same three helpers verbatim
(`_get_next_sq`/`get_next_sq`, `_get_student_grade`/`get_student_grade`,
`_delete_old_docs`/`_delete_old_iep_docs`/`delete_old_iep_docs`); each is
embedded once. -/

/-- Embeds `_get_next_sq(id, table_name, cnxn)` (doc_service.py lines 427-445,
sped_service.py lines 301-319, iep_at_a_glance.py lines 179-212):
`select top 1 sq from {table} where ID = {id} order by sq desc`; return `1`
when the result set is empty, otherwise the highest `sq` plus one.  The query
filters on `ID` only (not on `CT` or `DEL`). -/
def getNextSq (table : DocTable) (sid : Nat) : Nat :=
  match ((table.filter (fun r => r.id == sid)).map (fun r => r.sq)).max? with
  | none => 1
  | some m => m + 1

/-- Embeds `_get_student_grade(cnxn, stu_id)`:
`SELECT GR FROM STU WHERE ID = {stu_id} AND tg = '' and del = 0`, returning
`""` (here `[]`) when no row matches. -/
def getStudentGrade (roster : Roster) (sid : Nat) : PyStr :=
  match roster.filter (fun s => s.id == sid && s.tg == ([] : PyStr) && s.del == false) with
  | [] => []
  | s :: _ => s.gr

/-- Embeds `_delete_old_docs(cnxn, stu_id, doc_type_code)` (doc_service.py
lines 457-464) and `_delete_old_iep_docs` (sped_service.py lines 331-339):
`UPDATE DOC SET DEL = 1 WHERE ID = '{stu_id}' AND CT = '{doc_type_code}' AND DEL = 0`. -/
def deleteOldDocs (table : DocTable) (sid : Nat) (ct : PyStr) : DocTable :=
  table.map (fun r =>
    if r.id == sid && r.ct == ct && r.del == false then { r with del := true } else r)

/-- Embeds the `INSERT INTO DOC (...) VALUES (...)` statement: a new row is
appended to the table. -/
def insertDoc (table : DocTable) (row : DocRow) : DocTable := table ++ [row]

/-- The non-deleted rows of a given student and category: the rows the
supersession invariant counts. -/
def activeRows (table : DocTable) (sid : Nat) (ct : PyStr) : List DocRow :=
  table.filter (fun r => r.id == sid && r.ct == ct && r.del == false)

def activeCount (table : DocTable) (sid : Nat) (ct : PyStr) : Nat :=
  (activeRows table sid ct).length

/-! ## Configuration (config.py `Settings`)

Only the fields the pipeline's claims touch are embedded, with their
`decouple.config` defaults. -/

structure Settings where
  IEP_AT_A_GLANCE_DOCUMENT_CODE : PyStr := pstr "11"
  RECLASSIFICATION_DOCUMENT_CODE : PyStr := pstr "12"
  GENERAL_DOCUMENT_CODE : PyStr := pstr "99"
  TEST_RUN : Bool := false
  deriving Repr, DecidableEq

def defaultSettings : Settings := {}

/-! ## doc_service upload model (`DocService._upload_docs_to_aeries`) -/

/-- One segment produced by the reclassification splitter: the dictionary
appended at doc_service.py lines 295-302 (`file` is reduced to its basename
without extension, which is what the insert stores as `NM`). -/
structure ExtractedDoc where
  stuId : PyStr
  studentName : PyStr
  docName : PyStr
  docTypes : List PyStr
  payloadSize : Nat
  deriving Repr, DecidableEq

/-- Environment behaviour of the database during one segment's try-block:
either every call succeeds, or an exception is raised by the supersession
`UPDATE` (before it takes effect), or by the `INSERT` (after the supersession
has committed).  This models the exception nondeterminism of
doc_service.py lines 359-422. -/
inductive SegOutcome
  | ok
  | failAtSupersede
  | failAtInsert
  deriving Repr, DecidableEq

/-- The structured per-segment error dictionaries of doc_service.py. -/
structure UploadError where
  message : PyStr
  stuId : PyStr
  studentName : PyStr
  deriving Repr, DecidableEq

def invalidIdError (d : ExtractedDoc) : UploadError :=
  { message := pstr "Invalid student ID format: " ++ d.stuId
    stuId := d.stuId
    studentName := d.studentName }

def notFoundError (d : ExtractedDoc) : UploadError :=
  { message := pstr "Student " ++ d.stuId ++
      pstr " not found in the database, or student is inactive."
    stuId := d.stuId
    studentName := d.studentName }

def uploadExcError (d : ExtractedDoc) : UploadError :=
  { message := pstr "Error uploading document for student " ++ d.stuId
    stuId := d.stuId
    studentName := d.studentName }

/-- Embeds the hard-coded `category_codes` dictionary of
`_upload_docs_to_aeries` (doc_service.py lines 324-330) together with its
`.get(document_type, "99")` lookup.  Note it is a literal dictionary in the
method body: it does not read `Settings`. -/
def categoryCodes (documentType : PyStr) : PyStr :=
  if documentType == pstr "RECLASS" then pstr "06"
  else if documentType == pstr "IEP" then pstr "11"
  else if documentType == pstr "GENERAL" then pstr "99"
  else pstr "99"

/-- The student id a segment resolves to: `None` when the id carries the
`unknown_` placeholder or fails `int()` (the two guard branches at
doc_service.py lines 336 and 346). -/
def docSid (d : ExtractedDoc) : Option Nat :=
  if pyStartsWith (pstr "unknown_") d.stuId then none else pyToNat? d.stuId

/-- The row built by the `params` dictionary of doc_service.py lines 391-407:
`nm` is the document name truncated to 100 characters, `ct` the category code,
and `DEL` is absent from the insert so the row is active. -/
def mkDocRow (sid sq : Nat) (ct gr : PyStr) (d : ExtractedDoc) : DocRow :=
  { id := sid
    sq := sq
    ct := ct
    nm := d.docName.take 100
    gr := gr
    sz := d.payloadSize
    del := false }

/-- One iteration of the `for doc in extracted_docs` loop of
`_upload_docs_to_aeries` (doc_service.py lines 334-422), acting on the
(table, errors-so-far) pair: invalid-id guards, sequence read, grade read,
grade guard, then supersession followed by insert, with any exception in the
try-block recorded as a structured error and the loop continuing. -/
def uploadStep (roster : Roster) (ct : PyStr)
    (acc : DocTable × List UploadError) (seg : ExtractedDoc × SegOutcome) :
    DocTable × List UploadError :=
  let d := seg.1
  if pyStartsWith (pstr "unknown_") d.stuId then
    (acc.1, acc.2 ++ [invalidIdError d])
  else
    match pyToNat? d.stuId with
    | none => (acc.1, acc.2 ++ [invalidIdError d])
    | some sid =>
      let nextSq := getNextSq acc.1 sid
      let gr := getStudentGrade roster sid
      if gr == ([] : PyStr) then (acc.1, acc.2 ++ [notFoundError d])
      else
        match seg.2 with
        | .failAtSupersede => (acc.1, acc.2 ++ [uploadExcError d])
        | .failAtInsert => (deleteOldDocs acc.1 sid ct, acc.2 ++ [uploadExcError d])
        | .ok => (insertDoc (deleteOldDocs acc.1 sid ct) (mkDocRow sid nextSq ct gr d), acc.2)

/-- Embeds `_upload_docs_to_aeries(cnxn, extracted_docs, document_type,
test_run)` (doc_service.py lines 319-425).  The `test_run` parameter is
accepted but never read in the body — which connection it runs against is
decided by the caller. -/
def uploadDocsToAeries (roster : Roster) (documentType : PyStr)
    (docs : List (ExtractedDoc × SegOutcome)) (table : DocTable)
    (testRun : Bool) : DocTable × List UploadError :=
  docs.foldl (uploadStep roster (categoryCodes documentType)) (table, [])

/-- Decides that a segment takes the fully successful path of the loop:
outcome `ok`, parseable student id, student present and active in the roster. -/
def segSucceeds (roster : Roster) (p : ExtractedDoc × SegOutcome) : Bool :=
  p.2 == SegOutcome.ok &&
    match docSid p.1 with
    | none => false
    | some sid => getStudentGrade roster sid != ([] : PyStr)

/-! ## sped_service upload model (`SPEDService._upload_iep_docs_to_aeries`) -/

/-- One segment produced by the IEP splitter (sped_service.py lines 237-242). -/
structure IepDoc where
  stuId : PyStr
  iepDate : PyStr
  payloadSize : Nat
  deriving Repr, DecidableEq

/-- Models the external `dateparser.parse` succeeding on a date string.  The
dates reaching the sped upload are either `m/d/yyyy` matches of the boundary
detector's `IEP Date:` pattern (which dateparser parses) or the placeholder
`unknown_date` (on which `dateparser.parse` returns `None`, so the
`.strftime` call building `nm` raises). -/
def isIepDateShape (s : PyStr) : Bool :=
  match pySplitOn '/' s with
  | [m, d, y] =>
    decide (1 ≤ m.length) && decide (m.length ≤ 2) && m.all Char.isDigit &&
    decide (1 ≤ d.length) && decide (d.length ≤ 2) && d.all Char.isDigit &&
    decide (y.length = 4) && y.all Char.isDigit
  | _ => false

/-- The row built by the `params` dictionary of sped_service.py lines 276-292
(`nm` abstracts the reformatted-date interpolation; its content is not at
stake in any claim, `ct` is). -/
def mkIepRow (settings : Settings) (sid sq : Nat) (gr : PyStr) (d : IepDoc) : DocRow :=
  { id := sid
    sq := sq
    ct := settings.IEP_AT_A_GLANCE_DOCUMENT_CODE
    nm := pstr "IEP At A Glance " ++ d.iepDate ++ pstr " #" ++ d.stuId
    gr := gr
    sz := d.payloadSize
    del := false }

/-- One iteration of the `for doc in extracted_docs` loop of
`_upload_iep_docs_to_aeries` (sped_service.py lines 253-297).  Unlike the
doc_service loop there is no per-segment try/except: an exception (modelled:
`int()` failing on the id, or `dateparser.parse` returning `None` while `nm`
is built — note the latter happens after the supersession) aborts the whole
loop; the Bool component records "no exception raised so far".  The insert is
guarded by `if not test_run`; the supersession is not. -/
def spedUploadStep (settings : Settings) (roster : Roster) (testRun : Bool)
    (acc : DocTable × Bool) (d : IepDoc) : DocTable × Bool :=
  if !acc.2 then acc
  else
    match pyToNat? d.stuId with
    | none => (acc.1, false)
    | some sid =>
      let nextSq := getNextSq acc.1 sid
      let gr := getStudentGrade roster sid
      if gr == ([] : PyStr) then acc
      else
        let ct := settings.IEP_AT_A_GLANCE_DOCUMENT_CODE
        let t1 := deleteOldDocs acc.1 sid ct
        if !isIepDateShape d.iepDate then (t1, false)
        else if testRun then (t1, true)
        else (insertDoc t1 (mkIepRow settings sid nextSq gr d), true)

/-- Embeds `_upload_iep_docs_to_aeries(cnxn, extracted_docs, test_run)`
(sped_service.py lines 246-299): the loop over the extracted documents, with
`true` in the second component when it ran to completion without raising. -/
def uploadIepDocsToAeries (settings : Settings) (roster : Roster)
    (docs : List IepDoc) (table : DocTable) (testRun : Bool) : DocTable × Bool :=
  docs.foldl (spedUploadStep settings roster testRun) (table, true)

/-! ## Orchestrators -/

/-- The four batch statuses of the response models. -/
inductive UploadStatus
  | success
  | partialSuccess
  | warning
  | error
  deriving Repr, DecidableEq

/-- The two databases a connection can address: production Aeries or the
configured `TEST_DATABASE`. -/
structure Databases where
  prodDb : DocTable
  testDb : DocTable
  deriving Repr, DecidableEq

inductive Conn
  | prodConn
  | testConn
  deriving Repr, DecidableEq

/-- Embeds `DocService._get_connection` (doc_service.py lines 466-474):
`test_run` selects the `TEST_DATABASE` connection, otherwise production. -/
def getConnection (testRun : Bool) : Conn :=
  if testRun then .testConn else .prodConn

/-- Embeds `SPEDService._get_connection` (sped_service.py lines 341-349): both
branches pass `database=self.settings.TEST_DATABASE`, so either way the
connection addresses the test database. -/
def spedGetConnection (_testRun : Bool) : Conn := .testConn

def connTable (dbs : Databases) : Conn → DocTable
  | .prodConn => dbs.prodDb
  | .testConn => dbs.testDb

def setConnTable (dbs : Databases) : Conn → DocTable → Databases
  | .prodConn, t => { dbs with prodDb := t }
  | .testConn, t => { dbs with testDb := t }

/-- Embeds `DocService.process_reclassification_upload` (doc_service.py lines
23-114).  `filenameIsPdf` is the `.pdf` suffix check; `splitResult` is the
outcome of `_split_reclassification_pdf_from_upload` (`Except.error` when it
raises, caught by the outer handler).  Faithful details: `upload_success` is
initialised `True` and never changed, and both arms of the `if not test_run`
call `_upload_docs_to_aeries`, so the final status is `SUCCESS` exactly when
the error list is empty, `PARTIAL_SUCCESS` otherwise. -/
def processReclassificationUpload (roster : Roster) (dbs : Databases)
    (filenameIsPdf : Bool)
    (splitResult : Except PyStr (List (ExtractedDoc × SegOutcome)))
    (testRun : Bool) : UploadStatus × Databases × List UploadError :=
  if !filenameIsPdf then (.error, dbs, [])
  else
    match splitResult with
    | .error _ => (.error, dbs, [])
    | .ok docs =>
      if docs.isEmpty then (.warning, dbs, [])
      else
        let conn := getConnection testRun
        let result := uploadDocsToAeries roster (pstr "RECLASS") docs
          (connTable dbs conn) testRun
        ((if result.2.isEmpty then .success else .partialSuccess),
          setConnTable dbs conn result.1, result.2)

/-- Embeds `SPEDService.process_iep_upload` (sped_service.py lines 21-97).
With `test_run` the upload call is skipped entirely and `upload_success`
stays `True`; otherwise `upload_success` is `False` exactly when
`_upload_iep_docs_to_aeries` raised, and the status is `SUCCESS` or
`PARTIAL_SUCCESS` accordingly. -/
def processIepUpload (settings : Settings) (roster : Roster) (dbs : Databases)
    (filenameIsPdf : Bool) (splitResult : Except PyStr (List IepDoc))
    (testRun : Bool) : UploadStatus × Databases :=
  if !filenameIsPdf then (.error, dbs)
  else
    match splitResult with
    | .error _ => (.error, dbs)
    | .ok docs =>
      if docs.isEmpty then (.warning, dbs)
      else
        let conn := spedGetConnection testRun
        if testRun then (.success, dbs)
        else
          let result := uploadIepDocsToAeries settings roster docs
            (connTable dbs conn) false
          ((if result.2 then .success else .partialSuccess),
            setConnTable dbs conn result.1)

/-! ## Splitter page geometry (for claim C6)

Only the page-index arithmetic of the two splitters is embedded here; what a
page's text matches is abstracted into the `isHeader` / `extractId` oracles,
since it is the output of the external PDF text extractor. -/

/-- `range(start_page, end_page)` of the writer loops. -/
def pageRange (startPage endPage : Nat) : List Nat :=
  List.range' startPage (endPage - startPage)

/-- The page sets of `_split_iep_pdf` (sped_service.py lines 224-231,
iep_at_a_glance.py lines 69-75): segment `i` spans from its boundary's start
page up to the next boundary's start page, the last up to `total_pages`. -/
def segmentRanges : List Nat → Nat → List (List Nat)
  | [], _ => []
  | [b], total => [pageRange b total]
  | b :: b' :: rest, total => pageRange b b' :: segmentRanges (b' :: rest) total

/-- The boundary start pages collected by the single-header scan
(sped_service.py lines 194-221): the pages, in order, whose text matches the
header pattern. -/
def iepBoundaryPages (isHeader : Nat → Bool) (totalPages : Nat) : List Nat :=
  (List.range totalPages).filter isHeader

def iepSegments (isHeader : Nat → Bool) (totalPages : Nat) : List (List Nat) :=
  segmentRanges (iepBoundaryPages isHeader totalPages) totalPages

/-- Multi-header grouping of `_split_reclassification_pdf` (doc_service.py
lines 175-262): `extractId p` is the student id the id-pattern cascade
extracts from page `p` (`none` when no pattern matches, in which case the page
is skipped).  A student's segment is the sorted list of pages carrying that
student's id. -/
def pagesForStudent (extractId : Nat → Option PyStr) (totalPages : Nat)
    (sid : PyStr) : List Nat :=
  (List.range totalPages).filter (fun p => extractId p == some sid)

def reclassStudentIds (extractId : Nat → Option PyStr) (totalPages : Nat) :
    List PyStr :=
  ((List.range totalPages).filterMap extractId).dedup

def reclassSegments (extractId : Nat → Option PyStr) (totalPages : Nat) :
    List (List Nat) :=
  (reclassStudentIds extractId totalPages).map
    (pagesForStudent extractId totalPages)

/-! ## Date normalization (for claim C8)

Embeds sped_service.py lines 204-213 / iep_at_a_glance.py lines 49-58:
`month, day, year = iep_date.split('/')` with `zfill(2)` padding and
`YYYY-MM-DD` reassembly, under a bare `except` that falls back to
`iep_date.replace('/', '-')`; the `unknown_date` placeholder bypasses the
whole block. -/

def slashToHyphen (s : PyStr) : PyStr := pyReplaceChar '/' '-' s

def normalizeIepDate (iepDate : PyStr) : PyStr :=
  if iepDate ≠ pstr "unknown_date" then
    match pySplitOn '/' iepDate with
    | [month, day, year] =>
      year ++ pstr "-" ++ pyZfill month 2 ++ pstr "-" ++ pyZfill day 2
    | _ => slashToHyphen iepDate
  else iepDate

/-! ## Display-name validation (for claim C9)

Embeds the candidate validation of `_split_reclassification_pdf`
(doc_service.py lines 190-208): a matched candidate (already
whitespace-normalised by the cleanup substitutions) is accepted when
`2 < len(name) <= 50`, it contains no digit, and `name.split()` yields at
least two tokens, all alphabetic. -/

/-- Python `word.isalpha()`: nonempty and all characters alphabetic. -/
def pyIsAlphaStr (w : PyStr) : Bool := !w.isEmpty && w.all Char.isAlpha

def isValidStudentName (name : PyStr) : Bool :=
  decide (2 < name.length) && decide (name.length ≤ 50) &&
  !(name.any Char.isDigit) &&
  decide (2 ≤ (pySplitWs name).length) &&
  (pySplitWs name).all pyIsAlphaStr

/-- The pattern loop of doc_service.py lines 191-208: `student_name` starts as
`"Unknown"` and becomes the first matched candidate passing validation. -/
def extractDisplayName (candidates : List PyStr) : PyStr :=
  match candidates.find? isValidStudentName with
  | some name => name
  | none => pstr "Unknown"

/-! ## Views of the table used by the proofs -/

/-- The rows of one student, i.e. the result set of `where ID = {id}`. -/
def rowsFor (t : DocTable) (sid : Nat) : List DocRow :=
  t.filter (fun r => r.id == sid)

/-- The effect of the supersession `UPDATE` on one student's rows. -/
def flipCt (ct : PyStr) (rows : List DocRow) : List DocRow :=
  rows.map (fun r =>
    if r.ct == ct && r.del == false then { r with del := true } else r)

/-- `getNextSq` as a function of one student's rows. -/
def nextSqOf (rows : List DocRow) : Nat :=
  match (rows.map (fun r => r.sq)).max? with
  | none => 1
  | some m => m + 1

/-! ## Concrete sample data for witnesses and counterexamples -/

def sampleRoster : Roster :=
  [ { id := 123456, gr := pstr "5", tg := [], del := false },
    { id := 654321, gr := pstr "7", tg := [], del := false } ]

def sampleDoc : ExtractedDoc :=
  { stuId := pstr "123456"
    studentName := pstr "Maria Lopez"
    docName := pstr "123456_Maria_Lopez_Teacher_Evaluation"
    docTypes := [pstr "Teacher Evaluation for Reclassification"]
    payloadSize := 2048 }

def sampleDoc2 : ExtractedDoc :=
  { stuId := pstr "654321"
    studentName := pstr "Borui Hu"
    docName := pstr "654321_Borui_Hu_Reclassification_Meeting"
    docTypes := [pstr "Reclassification Meeting"]
    payloadSize := 1024 }

def sampleDocUnknown : ExtractedDoc :=
  { stuId := pstr "unknown_0"
    studentName := pstr "Unknown"
    docName := pstr "unknown_0_document"
    docTypes := []
    payloadSize := 99 }

def sampleIepDoc : IepDoc :=
  { stuId := pstr "123456"
    iepDate := pstr "3/5/2024"
    payloadSize := 4096 }

/-- A table holding one active IEP-category row for student 123456. -/
def sampleIepTable : DocTable :=
  [ { id := 123456, sq := 1, ct := pstr "11", nm := pstr "old IEP"
      gr := pstr "5", sz := 7, del := false } ]

def emptyDbs : Databases := { prodDb := [], testDb := [] }

/-! ## Facts about `List.max?` over naturals -/

theorem le_foldl_max_init (as : List Nat) (a : Nat) : a ≤ as.foldl max a := by
  induction as generalizing a with
  | nil => exact Nat.le_refl a
  | cons b bs ih => exact Nat.le_trans (Nat.le_max_left a b) (ih (max a b))

theorem le_foldl_max_of_mem (as : List Nat) (a x : Nat) (hx : x ∈ as) :
    x ≤ as.foldl max a := by
  induction as generalizing a with
  | nil => cases hx
  | cons b bs ih =>
    rcases List.mem_cons.mp hx with h | h
    · subst h
      exact Nat.le_trans (Nat.le_max_right a x) (le_foldl_max_init bs (max a x))
    · exact ih (max a b) h

theorem foldl_max_mem (as : List Nat) (a : Nat) :
    as.foldl max a = a ∨ as.foldl max a ∈ as := by
  induction as generalizing a with
  | nil => exact Or.inl rfl
  | cons b bs ih =>
    rw [List.foldl_cons]
    rcases ih (max a b) with h | h
    · rcases max_choice a b with hma | hmb
      · exact Or.inl (h.trans hma)
      · rw [h, hmb]; exact Or.inr (List.mem_cons_self b bs)
    · exact Or.inr (List.mem_cons_of_mem b h)

theorem max?_spec (l : List Nat) (hne : l ≠ []) :
    ∃ m, l.max? = some m ∧ m ∈ l ∧ ∀ x ∈ l, x ≤ m := by
  cases l with
  | nil => exact absurd rfl hne
  | cons a as =>
    refine ⟨as.foldl max a, rfl, ?_, ?_⟩
    · rcases foldl_max_mem as a with h | h
      · rw [h]; exact List.mem_cons_self a as
      · exact List.mem_cons_of_mem a h
    · intro x hx
      rcases List.mem_cons.mp hx with h | h
      · subst h; exact le_foldl_max_init as x
      · exact le_foldl_max_of_mem as a x h

/-- Claim C5: for every student identifier and table, `next_sequence` returns 1
when the table contains no row for that student, and otherwise returns the
maximum existing sequence number for that student in that table plus one. -/
theorem C5_next_sequence (t : DocTable) (sid : Nat) :
    (t.filter (fun r => r.id == sid) = [] → getNextSq t sid = 1) ∧
    (∀ r ∈ t, r.id = sid → r.sq < getNextSq t sid) ∧
    (t.filter (fun r => r.id == sid) ≠ [] →
      ∃ r ∈ t, r.id = sid ∧ getNextSq t sid = r.sq + 1) := by
  refine ⟨?_, ?_, ?_⟩
  · intro h
    simp only [getNextSq, h, List.map_nil, List.max?_nil]
  · intro r hr hid
    have hmem : r ∈ t.filter (fun r => r.id == sid) :=
      List.mem_filter.mpr ⟨hr, by simp [hid]⟩
    have hsq : r.sq ∈ (t.filter (fun r => r.id == sid)).map (fun r => r.sq) :=
      List.mem_map.mpr ⟨r, hmem, rfl⟩
    obtain ⟨m, hm, -, hall⟩ :=
      max?_spec _ (List.ne_nil_of_mem hsq)
    have : r.sq ≤ m := hall _ hsq
    simp only [getNextSq, hm]
    omega
  · intro h
    have hmne : (t.filter (fun r => r.id == sid)).map (fun r => r.sq) ≠ [] := by
      simpa using h
    obtain ⟨m, hm, hmem, -⟩ := max?_spec _ hmne
    obtain ⟨r, hrf, hrsq⟩ := List.mem_map.mp hmem
    have hrt := List.mem_filter.mp hrf
    refine ⟨r, hrt.1, by simpa using hrt.2, ?_⟩
    simp only [getNextSq, hm, hrsq]

/-! ## Supersession and insertion lemmas -/

theorem activeRows_append (t u : DocTable) (sid : Nat) (ct : PyStr) :
    activeRows (t ++ u) sid ct = activeRows t sid ct ++ activeRows u sid ct := by
  simp [activeRows, List.filter_append]

/-- The supersession map preserves the `id` field. -/
theorem deleteOld_fun_id (sid : Nat) (ct : PyStr) (r : DocRow) :
    ((if r.id == sid && r.ct == ct && r.del == false
        then { r with del := true } else r) : DocRow).id = r.id := by
  by_cases h : (r.id == sid && r.ct == ct && r.del == false) = true
  · rw [if_pos h]
  · rw [if_neg h]

/-- After the supersession `UPDATE`, no row of the targeted student and
category is active. -/
theorem activeRows_deleteOldDocs (t : DocTable) (sid : Nat) (ct : PyStr) :
    activeRows (deleteOldDocs t sid ct) sid ct = [] := by
  unfold activeRows deleteOldDocs
  rw [List.filter_map, List.map_eq_nil_iff, List.filter_eq_nil_iff]
  intro r _
  by_cases h : (r.id == sid && r.ct == ct && r.del == false) = true
  · simp only [Function.comp_apply, if_pos h]
    simp
  · simp only [Function.comp_apply, if_neg h]
    exact h

/-- The supersession `UPDATE` only touches rows of its student. -/
theorem rowsFor_deleteOldDocs_ne (t : DocTable) (sid sid' : Nat) (ct : PyStr)
    (hne : sid' ≠ sid) :
    rowsFor (deleteOldDocs t sid ct) sid' = rowsFor t sid' := by
  unfold rowsFor deleteOldDocs
  rw [List.filter_map]
  have h1 : List.filter ((fun r : DocRow => r.id == sid') ∘ (fun r =>
      if r.id == sid && r.ct == ct && r.del == false
        then { r with del := true } else r)) t
      = List.filter (fun r : DocRow => r.id == sid') t := by
    apply List.filter_congr
    intro r _
    simp only [Function.comp_apply]
    rw [deleteOld_fun_id]
  rw [h1]
  have h2 : ∀ r ∈ List.filter (fun r : DocRow => r.id == sid') t,
      ((if r.id == sid && r.ct == ct && r.del == false
        then { r with del := true } else r) : DocRow) = r := by
    intro r hr
    have hid : r.id = sid' := by simpa using (List.mem_filter.mp hr).2
    have hfalse : (r.id == sid) = false := by simp [hid, hne]
    simp [hfalse]
  rw [List.map_congr_left h2]
  simp

/-- On its own student's rows the supersession acts as `flipCt`. -/
theorem rowsFor_deleteOldDocs_self (t : DocTable) (sid : Nat) (ct : PyStr) :
    rowsFor (deleteOldDocs t sid ct) sid = flipCt ct (rowsFor t sid) := by
  unfold rowsFor deleteOldDocs flipCt
  rw [List.filter_map]
  have h1 : List.filter ((fun r : DocRow => r.id == sid) ∘ (fun r =>
      if r.id == sid && r.ct == ct && r.del == false
        then { r with del := true } else r)) t
      = List.filter (fun r : DocRow => r.id == sid) t := by
    apply List.filter_congr
    intro r _
    simp only [Function.comp_apply]
    rw [deleteOld_fun_id]
  rw [h1]
  apply List.map_congr_left
  intro r hr
  have hid : (r.id == sid) = true := (List.mem_filter.mp hr).2
  simp only [hid, Bool.true_and]

/-- `flipCt` leaves no active row of its category. -/
theorem filter_active_flipCt (rows : List DocRow) (ct : PyStr) :
    (flipCt ct rows).filter (fun r => r.ct == ct && r.del == false) = [] := by
  unfold flipCt
  rw [List.filter_map, List.map_eq_nil_iff, List.filter_eq_nil_iff]
  intro r _
  by_cases h : (r.ct == ct && r.del == false) = true
  · simp only [Function.comp_apply, if_pos h]
    simp
  · simp only [Function.comp_apply, if_neg h]
    exact h

/-- `activeRows` is the category-and-deletion filter of one student's rows. -/
theorem activeRows_eq_filter_rowsFor (t : DocTable) (sid : Nat) (ct : PyStr) :
    activeRows t sid ct = (rowsFor t sid).filter (fun r => r.ct == ct && r.del == false) := by
  unfold activeRows rowsFor
  rw [List.filter_filter]
  apply List.filter_congr
  intro r _
  cases ha : (r.id == sid) <;> cases hb : (r.ct == ct) <;> cases hc : (r.del == false) <;> rfl

/-! ## Branch equations for one segment of `_upload_docs_to_aeries` -/

theorem docSid_some_elim (d : ExtractedDoc) (sid : Nat) (h : docSid d = some sid) :
    pyStartsWith (pstr "unknown_") d.stuId = false ∧ pyToNat? d.stuId = some sid := by
  unfold docSid at h
  by_cases hu : pyStartsWith (pstr "unknown_") d.stuId = true
  · rw [if_pos hu] at h; cases h
  · have hu' : pyStartsWith (pstr "unknown_") d.stuId = false := by
      rwa [Bool.not_eq_true] at hu
    rw [if_neg hu] at h
    exact ⟨hu', h⟩

/-- The fully successful branch: supersession strictly before the insert. -/
theorem uploadStep_ok_eq (roster : Roster) (ct : PyStr) (t : DocTable)
    (e : List UploadError) (d : ExtractedDoc) (sid : Nat)
    (hsid : docSid d = some sid)
    (hgr : getStudentGrade roster sid ≠ ([] : PyStr)) :
    uploadStep roster ct (t, e) (d, .ok) =
      (insertDoc (deleteOldDocs t sid ct)
        (mkDocRow sid (getNextSq t sid) ct (getStudentGrade roster sid) d), e) := by
  obtain ⟨hu, hparse⟩ := docSid_some_elim d sid hsid
  have hgrb : (getStudentGrade roster sid == ([] : PyStr)) = false :=
    beq_eq_false_iff_ne.mpr hgr
  unfold uploadStep
  simp [hu, hparse, hgrb]

/-- An exception raised by the insert: the supersession has already committed,
a structured error is recorded, the loop continues. -/
theorem uploadStep_failInsert_eq (roster : Roster) (ct : PyStr) (t : DocTable)
    (e : List UploadError) (d : ExtractedDoc) (sid : Nat)
    (hsid : docSid d = some sid)
    (hgr : getStudentGrade roster sid ≠ ([] : PyStr)) :
    uploadStep roster ct (t, e) (d, .failAtInsert) =
      (deleteOldDocs t sid ct, e ++ [uploadExcError d]) := by
  obtain ⟨hu, hparse⟩ := docSid_some_elim d sid hsid
  have hgrb : (getStudentGrade roster sid == ([] : PyStr)) = false :=
    beq_eq_false_iff_ne.mpr hgr
  unfold uploadStep
  simp [hu, hparse, hgrb]

/-- An exception raised by the supersession itself: no table change, a
structured error is recorded, the loop continues. -/
theorem uploadStep_failSupersede_eq (roster : Roster) (ct : PyStr) (t : DocTable)
    (e : List UploadError) (d : ExtractedDoc) (sid : Nat)
    (hsid : docSid d = some sid)
    (hgr : getStudentGrade roster sid ≠ ([] : PyStr)) :
    uploadStep roster ct (t, e) (d, .failAtSupersede) =
      (t, e ++ [uploadExcError d]) := by
  obtain ⟨hu, hparse⟩ := docSid_some_elim d sid hsid
  have hgrb : (getStudentGrade roster sid == ([] : PyStr)) = false :=
    beq_eq_false_iff_ne.mpr hgr
  unfold uploadStep
  simp [hu, hparse, hgrb]

/-- Claim C1: for every student identifier and supersession-enabled category,
after any successful upload of a segment for that student and category, at
most one non-deleted archived document row for that student and category
exists in the document table, because the supersession soft-delete is
executed strictly before the new row is inserted. -/
theorem C1_supersession_single_active (roster : Roster) (ct : PyStr)
    (t : DocTable) (e : List UploadError) (d : ExtractedDoc) (sid : Nat)
    (hsid : docSid d = some sid)
    (hgr : getStudentGrade roster sid ≠ ([] : PyStr)) :
    activeCount (uploadStep roster ct (t, e) (d, .ok)).1 sid ct ≤ 1 := by
  rw [uploadStep_ok_eq roster ct t e d sid hsid hgr]
  unfold activeCount insertDoc
  rw [activeRows_append, activeRows_deleteOldDocs, List.nil_append]
  simp [activeRows, mkDocRow, List.filter]

/-- Witness for C1 at a concrete input. -/
theorem C1_witness :
    activeCount (uploadStep sampleRoster (pstr "06")
      (sampleIepTable, []) (sampleDoc, .ok)).1 123456 (pstr "06") ≤ 1 :=
  C1_supersession_single_active sampleRoster (pstr "06") sampleIepTable []
    sampleDoc 123456 (by decide) (by decide)

/-- Claim C7 as stated is false at this input: a successful reclassification
upload stores the hard-coded category code `"06"` on the inserted row, while
the configuration-sourced reclassification family code
(`Settings.RECLASSIFICATION_DOCUMENT_CODE`) is `"12"`. -/
theorem C7_counterexample :
    ((uploadDocsToAeries sampleRoster (pstr "RECLASS") [(sampleDoc, .ok)] []
        false).1.map (fun r => r.ct) = [pstr "06"]) ∧
    defaultSettings.RECLASSIFICATION_DOCUMENT_CODE = pstr "12" ∧
    (pstr "06" : PyStr) ≠ pstr "12" := by decide

/-- Claim C7 amended: the category code stored on the archived document row is
the code that the hard-coded `category_codes` dictionary of
`_upload_docs_to_aeries` maps the document family to (`"06"` for the
reclassification family — not the configured `RECLASSIFICATION_DOCUMENT_CODE`
— `"11"` for IEP, `"99"` for general and unknown families), independent of
the segment's specific sub-labels; only the SPED service's IEP upload takes
its code (`IEP_AT_A_GLANCE_DOCUMENT_CODE`, default `"11"`) from
configuration. -/
theorem C7_category_code_amended (roster : Roster) (dt : PyStr) (t : DocTable)
    (e : List UploadError) (d : ExtractedDoc) (sid : Nat) (settings : Settings)
    (gr : PyStr) (sq : Nat) (di : IepDoc)
    (hsid : docSid d = some sid)
    (hgr : getStudentGrade roster sid ≠ ([] : PyStr)) :
    (∀ ts : List PyStr,
        ∀ r ∈ (uploadStep roster (categoryCodes dt) (t, e)
          ({ d with docTypes := ts }, .ok)).1,
        r ∈ deleteOldDocs t sid (categoryCodes dt) ∨ r.ct = categoryCodes dt) ∧
    categoryCodes (pstr "RECLASS") = pstr "06" ∧
    categoryCodes (pstr "IEP") = pstr "11" ∧
    categoryCodes (pstr "GENERAL") = pstr "99" ∧
    (mkDocRow sid sq (categoryCodes dt) gr d).ct = categoryCodes dt ∧
    (mkIepRow settings sid sq gr di).ct = settings.IEP_AT_A_GLANCE_DOCUMENT_CODE := by
  refine ⟨?_, by decide, by decide, by decide, rfl, rfl⟩
  intro ts r hr
  have hsid' : docSid { d with docTypes := ts } = some sid := hsid
  rw [uploadStep_ok_eq roster (categoryCodes dt) t e _ sid hsid' hgr] at hr
  unfold insertDoc at hr
  rcases List.mem_append.mp hr with h | h
  · exact Or.inl h
  · have : r = mkDocRow sid (getNextSq t sid) (categoryCodes dt)
        (getStudentGrade roster sid) { d with docTypes := ts } :=
      List.mem_singleton.mp h
    subst this
    exact Or.inr rfl

/-- Witness for the amended C7 at a concrete input. -/
theorem C7_witness : categoryCodes (pstr "RECLASS") = pstr "06" :=
  (C7_category_code_amended sampleRoster (pstr "RECLASS") sampleIepTable []
    sampleDoc 123456 defaultSettings (pstr "5") 1 sampleIepDoc
    (by decide) (by decide)).2.1

/-! ## Frame and effect lemmas for the batch loop -/

theorem rowsFor_append (t u : DocTable) (sid : Nat) :
    rowsFor (t ++ u) sid = rowsFor t sid ++ rowsFor u sid := by
  simp [rowsFor, List.filter_append]

theorem uploadStep_invalid_eq (roster : Roster) (ct : PyStr) (t : DocTable)
    (e : List UploadError) (d : ExtractedDoc) (o : SegOutcome)
    (h : docSid d = none) :
    uploadStep roster ct (t, e) (d, o) = (t, e ++ [invalidIdError d]) := by
  unfold docSid at h
  unfold uploadStep
  by_cases hu : pyStartsWith (pstr "unknown_") d.stuId = true
  · simp [hu]
  · rw [if_neg hu] at h
    have hu' : pyStartsWith (pstr "unknown_") d.stuId = false := by
      rwa [Bool.not_eq_true] at hu
    simp [hu', h]

theorem uploadStep_notFound_eq (roster : Roster) (ct : PyStr) (t : DocTable)
    (e : List UploadError) (d : ExtractedDoc) (o : SegOutcome) (sid : Nat)
    (hsid : docSid d = some sid)
    (hgr : getStudentGrade roster sid = ([] : PyStr)) :
    uploadStep roster ct (t, e) (d, o) = (t, e ++ [notFoundError d]) := by
  obtain ⟨hu, hm⟩ := docSid_some_elim d sid hsid
  unfold uploadStep
  simp [hu, hm, hgr]

/-- A segment whose id does not resolve to `sid` leaves student `sid`'s rows
unchanged, whatever its outcome. -/
theorem uploadStep_frame (roster : Roster) (ct : PyStr) (t : DocTable)
    (e : List UploadError) (d : ExtractedDoc) (o : SegOutcome) (sid : Nat)
    (hne : docSid d ≠ some sid) :
    rowsFor (uploadStep roster ct (t, e) (d, o)).1 sid = rowsFor t sid := by
  cases hds : docSid d with
  | none => rw [uploadStep_invalid_eq roster ct t e d o hds]
  | some sid' =>
    by_cases hg : getStudentGrade roster sid' = ([] : PyStr)
    · rw [uploadStep_notFound_eq roster ct t e d o sid' hds hg]
    · have hsid' : sid' ≠ sid := fun hEq => hne (hEq ▸ hds)
      cases o with
      | failAtSupersede =>
        rw [uploadStep_failSupersede_eq roster ct t e d sid' hds hg]
      | failAtInsert =>
        rw [uploadStep_failInsert_eq roster ct t e d sid' hds hg]
        exact rowsFor_deleteOldDocs_ne t sid' sid ct (Ne.symm hsid')
      | ok =>
        rw [uploadStep_ok_eq roster ct t e d sid' hds hg]
        unfold insertDoc
        rw [rowsFor_append, rowsFor_deleteOldDocs_ne t sid' sid ct (Ne.symm hsid')]
        have hnil : rowsFor [mkDocRow sid' (getNextSq t sid') ct
            (getStudentGrade roster sid') d] sid = [] := by
          simp [rowsFor, mkDocRow, hsid']
        rw [hnil, List.append_nil]

/-- A run over segments none of which resolves to `sid` leaves student `sid`'s
rows unchanged. -/
theorem uploadRun_frame (roster : Roster) (ct : PyStr)
    (docs : List (ExtractedDoc × SegOutcome)) (sid : Nat) :
    ∀ (t : DocTable) (e : List UploadError),
    (∀ p ∈ docs, docSid p.1 ≠ some sid) →
    rowsFor (docs.foldl (uploadStep roster ct) (t, e)).1 sid = rowsFor t sid := by
  induction docs with
  | nil => intro t e _; rfl
  | cons q rest ih =>
    intro t e h
    rw [List.foldl_cons]
    have hrest := ih (uploadStep roster ct (t, e) q).1
      (uploadStep roster ct (t, e) q).2
      (fun p hp => h p (List.mem_cons_of_mem q hp))
    rw [hrest]
    exact uploadStep_frame roster ct t e q.1 q.2 sid
      (h q (List.mem_cons_self q rest))

theorem segSucceeds_sid (roster : Roster) (p : ExtractedDoc × SegOutcome)
    (h : segSucceeds roster p = true) : ∃ sid, docSid p.1 = some sid := by
  unfold segSucceeds at h
  rw [Bool.and_eq_true] at h
  cases hds : docSid p.1 with
  | none => rw [hds] at h; exact absurd h.2 (by simp)
  | some s => exact ⟨s, rfl⟩

theorem segSucceeds_elim (roster : Roster) (p : ExtractedDoc × SegOutcome)
    (sid : Nat) (h : segSucceeds roster p = true) (hsid : docSid p.1 = some sid) :
    p.2 = SegOutcome.ok ∧ getStudentGrade roster sid ≠ ([] : PyStr) := by
  unfold segSucceeds at h
  rw [hsid, Bool.and_eq_true] at h
  refine ⟨by simpa using h.1, ?_⟩
  have := h.2
  simpa using this

/-- Running a batch of fully successful segments with pairwise-distinct
student ids: each segment's student ends with exactly their old rows
soft-deleted in the category plus the one new row, whose sequence number is
read from the table as it stood when the batch started processing them. -/
theorem uploadRun_effect (roster : Roster) (ct : PyStr)
    (docs : List (ExtractedDoc × SegOutcome)) :
    ∀ (t : DocTable) (e : List UploadError),
    (∀ p ∈ docs, segSucceeds roster p = true) →
    (docs.filterMap (fun p => docSid p.1)).Nodup →
    ∀ p ∈ docs, ∀ sid, docSid p.1 = some sid →
    rowsFor (docs.foldl (uploadStep roster ct) (t, e)).1 sid =
      flipCt ct (rowsFor t sid) ++
        [mkDocRow sid (getNextSq t sid) ct (getStudentGrade roster sid) p.1] := by
  induction docs with
  | nil => intro t e _ _ p hp; cases hp
  | cons q rest ih =>
    intro t e hok hnd p hp sid hsid
    obtain ⟨sidq, hsidq⟩ := segSucceeds_sid roster q (hok q (List.mem_cons_self q rest))
    have hndr : (rest.filterMap (fun p => docSid p.1)).Nodup ∧
        sidq ∉ rest.filterMap (fun p => docSid p.1) := by
      rw [List.filterMap_cons, hsidq] at hnd
      exact ⟨(List.nodup_cons.mp hnd).2, (List.nodup_cons.mp hnd).1⟩
    rw [List.foldl_cons]
    rcases List.mem_cons.mp hp with hEq | hp'
    · -- the head segment is the one we are tracking
      subst hEq
      have hs : sidq = sid := by
        rw [hsid] at hsidq
        exact (Option.some_inj.mp hsidq).symm
      rw [hs] at hndr
      obtain ⟨hok2, hgr⟩ := segSucceeds_elim roster p sid
        (hok p (List.mem_cons_self p rest)) hsid
      have hstep : uploadStep roster ct (t, e) p =
          (insertDoc (deleteOldDocs t sid ct)
            (mkDocRow sid (getNextSq t sid) ct (getStudentGrade roster sid) p.1), e) := by
        have : p = (p.1, p.2) := rfl
        rw [this, hok2]
        exact uploadStep_ok_eq roster ct t e p.1 sid hsid hgr
      rw [hstep]
      have hframe : ∀ p' ∈ rest, docSid p'.1 ≠ some sid := by
        intro p' hp' hcon
        exact hndr.2 (List.mem_filterMap.mpr ⟨p', hp', hcon⟩)
      rw [uploadRun_frame roster ct rest sid _ _ hframe]
      unfold insertDoc
      rw [rowsFor_append, rowsFor_deleteOldDocs_self]
      have hone : rowsFor [mkDocRow sid (getNextSq t sid) ct
          (getStudentGrade roster sid) p.1] sid =
          [mkDocRow sid (getNextSq t sid) ct (getStudentGrade roster sid) p.1] := by
        simp [rowsFor, mkDocRow]
      rw [hone]
    · -- the tracked segment is further down the batch
      have hne : sidq ≠ sid := by
        intro hEq
        subst hEq
        exact hndr.2 (List.mem_filterMap.mpr ⟨p, hp', hsid⟩)
      have hstepframe : rowsFor (uploadStep roster ct (t, e) q).1 sid = rowsFor t sid := by
        have : q = (q.1, q.2) := rfl
        rw [this]
        exact uploadStep_frame roster ct t e q.1 q.2 sid (by rw [hsidq]; simp [hne])
      have := ih (uploadStep roster ct (t, e) q).1 (uploadStep roster ct (t, e) q).2
        (fun p' hp'' => hok p' (List.mem_cons_of_mem q hp'')) hndr.1 p hp' sid hsid
      rw [this, hstepframe]
      have hsq : getNextSq (uploadStep roster ct (t, e) q).1 sid = getNextSq t sid := by
        unfold getNextSq
        have : (fun r : DocRow => r.id == sid) = (fun r : DocRow => r.id == sid) := rfl
        rw [show ((uploadStep roster ct (t, e) q).1.filter (fun r => r.id == sid))
            = rowsFor (uploadStep roster ct (t, e) q).1 sid from rfl]
        rw [show (t.filter (fun r => r.id == sid)) = rowsFor t sid from rfl]
        rw [hstepframe]
      rw [hsq]

theorem uploadDocsToAeries_def (roster : Roster) (dt : PyStr)
    (docs : List (ExtractedDoc × SegOutcome)) (t : DocTable) (testRun : Bool) :
    uploadDocsToAeries roster dt docs t testRun =
      docs.foldl (uploadStep roster (categoryCodes dt)) (t, []) := rfl

/-- Any existing row of a student bounds that student's next sequence number
from below. -/
theorem sq_lt_getNextSq_of_mem (t : DocTable) (sid : Nat) (r : DocRow)
    (hr : r ∈ rowsFor t sid) : r.sq < getNextSq t sid := by
  unfold rowsFor at hr
  unfold getNextSq
  have hmem : r.sq ∈ (t.filter (fun r => r.id == sid)).map (fun r => r.sq) :=
    List.mem_map.mpr ⟨r, hr, rfl⟩
  obtain ⟨m, hm, -, hall⟩ := max?_spec _ (List.ne_nil_of_mem hmem)
  rw [hm]
  exact Nat.lt_succ_of_le (hall _ hmem)

/-- A student's rows of the shape "superseded history plus one fresh active
row" have exactly that row active. -/
theorem activeRows_of_rowsFor_eq (t : DocTable) (sid : Nat) (ct : PyStr)
    (rows : List DocRow) (row : DocRow)
    (h : rowsFor t sid = flipCt ct rows ++ [row])
    (hctr : row.ct = ct) (hdel : row.del = false) :
    activeRows t sid ct = [row] := by
  rw [activeRows_eq_filter_rowsFor, h, List.filter_append, filter_active_flipCt]
  simp [List.filter, hctr, hdel]

/-- Claim C2: for every batch whose upload succeeds (and whose segments carry
pairwise-distinct student ids, as the reclassification splitter guarantees by
grouping pages per student), running the same successful batch a second time
leaves exactly one active (non-deleted) row for each student and category in
it, and the sequence number of the second upload's row is strictly greater
than the sequence number of the first upload's row. -/
theorem C2_idempotent_rerun (roster : Roster) (documentType : PyStr)
    (docs : List (ExtractedDoc × SegOutcome)) (t0 : DocTable) (testRun : Bool)
    (hok : ∀ p ∈ docs, segSucceeds roster p = true)
    (hnd : (docs.filterMap (fun p => docSid p.1)).Nodup) :
    ∀ p ∈ docs, ∀ sid, docSid p.1 = some sid →
    (activeRows (uploadDocsToAeries roster documentType docs t0 testRun).1 sid
      (categoryCodes documentType)).length = 1 ∧
    (activeRows (uploadDocsToAeries roster documentType docs
        (uploadDocsToAeries roster documentType docs t0 testRun).1 testRun).1 sid
      (categoryCodes documentType)).length = 1 ∧
    (∀ r1 ∈ activeRows (uploadDocsToAeries roster documentType docs t0 testRun).1
        sid (categoryCodes documentType),
     ∀ r2 ∈ activeRows (uploadDocsToAeries roster documentType docs
        (uploadDocsToAeries roster documentType docs t0 testRun).1 testRun).1
        sid (categoryCodes documentType),
     r1.sq < r2.sq) := by
  intro p hp sid hsid
  have key1 := uploadRun_effect roster (categoryCodes documentType) docs t0 []
    hok hnd p hp sid hsid
  have key2 := uploadRun_effect roster (categoryCodes documentType) docs
    (uploadDocsToAeries roster documentType docs t0 testRun).1 []
    hok hnd p hp sid hsid
  rw [← uploadDocsToAeries_def roster documentType docs t0 testRun] at key1
  rw [← uploadDocsToAeries_def roster documentType docs
    (uploadDocsToAeries roster documentType docs t0 testRun).1 testRun] at key2
  have hact1 := activeRows_of_rowsFor_eq _ sid (categoryCodes documentType) _ _
    key1 rfl rfl
  have hact2 := activeRows_of_rowsFor_eq _ sid (categoryCodes documentType) _ _
    key2 rfl rfl
  refine ⟨by rw [hact1]; rfl, by rw [hact2]; rfl, ?_⟩
  intro r1 hr1 r2 hr2
  rw [hact1] at hr1
  rw [hact2] at hr2
  have e1 := List.mem_singleton.mp hr1
  have e2 := List.mem_singleton.mp hr2
  subst e1
  subst e2
  have hmem : mkDocRow sid (getNextSq t0 sid) (categoryCodes documentType)
      (getStudentGrade roster sid) p.1 ∈
      rowsFor (uploadDocsToAeries roster documentType docs t0 testRun).1 sid := by
    rw [key1]
    exact List.mem_append_right _ (List.mem_singleton_self _)
  exact sq_lt_getNextSq_of_mem _ sid _ hmem

/-- Witness for C2 at a concrete two-student batch. -/
theorem C2_witness :
    (activeRows (uploadDocsToAeries sampleRoster (pstr "RECLASS")
        [(sampleDoc, .ok), (sampleDoc2, .ok)] [] false).1 123456
      (categoryCodes (pstr "RECLASS"))).length = 1 :=
  (C2_idempotent_rerun sampleRoster (pstr "RECLASS")
    [(sampleDoc, .ok), (sampleDoc2, .ok)] [] false (by decide) (by decide)
    (sampleDoc, .ok) (by decide) 123456 (by decide)).1

/-! ## Error accumulation -/

/-- One loop iteration only ever appends to the error list. -/
theorem uploadStep_errs_mono (roster : Roster) (ct : PyStr)
    (acc : DocTable × List UploadError) (seg : ExtractedDoc × SegOutcome) :
    ∃ extra, (uploadStep roster ct acc seg).2 = acc.2 ++ extra := by
  obtain ⟨t, e⟩ := acc
  obtain ⟨d, o⟩ := seg
  unfold uploadStep
  dsimp only
  split
  · exact ⟨[invalidIdError d], rfl⟩
  · split
    · exact ⟨[invalidIdError d], rfl⟩
    · split
      · exact ⟨[notFoundError d], rfl⟩
      · split
        · exact ⟨[uploadExcError d], rfl⟩
        · exact ⟨[uploadExcError d], rfl⟩
        · exact ⟨[], by simp⟩

theorem uploadRun_errs_mono (roster : Roster) (ct : PyStr)
    (docs : List (ExtractedDoc × SegOutcome)) :
    ∀ acc : DocTable × List UploadError,
    ∃ extra, (docs.foldl (uploadStep roster ct) acc).2 = acc.2 ++ extra := by
  induction docs with
  | nil => intro acc; exact ⟨[], by simp⟩
  | cons q rest ih =>
    intro acc
    rw [List.foldl_cons]
    obtain ⟨e1, h1⟩ := uploadStep_errs_mono roster ct acc q
    obtain ⟨e2, h2⟩ := ih (uploadStep roster ct acc q)
    exact ⟨e1 ++ e2, by rw [h2, h1, List.append_assoc]⟩

/-- Claim C4: an exception during a segment's supersession or insert fails
only that segment: a structured error is recorded, the remaining segments are
still processed (from the state the failed segment left behind), no exception
propagates out of the loop, and a supersession already applied before an
insert failure is not rolled back, leaving the student with zero active
documents in that category. -/
theorem C4_segment_failure_isolation (roster : Roster) (ct : PyStr)
    (pre post : List (ExtractedDoc × SegOutcome)) (d : ExtractedDoc)
    (sid : Nat) (t0 : DocTable)
    (hsid : docSid d = some sid)
    (hgr : getStudentGrade roster sid ≠ ([] : PyStr))
    (hpost : ∀ p ∈ post, docSid p.1 ≠ some sid) :
    ((pre ++ (d, SegOutcome.failAtInsert) :: post).foldl
        (uploadStep roster ct) (t0, []) =
      post.foldl (uploadStep roster ct)
        (deleteOldDocs (pre.foldl (uploadStep roster ct) (t0, [])).1 sid ct,
         (pre.foldl (uploadStep roster ct) (t0, [])).2 ++ [uploadExcError d])) ∧
    uploadExcError d ∈
      ((pre ++ (d, SegOutcome.failAtInsert) :: post).foldl
        (uploadStep roster ct) (t0, [])).2 ∧
    activeCount ((pre ++ (d, SegOutcome.failAtInsert) :: post).foldl
        (uploadStep roster ct) (t0, [])).1 sid ct = 0 ∧
    ((pre ++ (d, SegOutcome.failAtSupersede) :: post).foldl
        (uploadStep roster ct) (t0, []) =
      post.foldl (uploadStep roster ct)
        ((pre.foldl (uploadStep roster ct) (t0, [])).1,
         (pre.foldl (uploadStep roster ct) (t0, [])).2 ++ [uploadExcError d])) := by
  have hsplit1 : (pre ++ (d, SegOutcome.failAtInsert) :: post).foldl
      (uploadStep roster ct) (t0, []) =
      post.foldl (uploadStep roster ct)
        (deleteOldDocs (pre.foldl (uploadStep roster ct) (t0, [])).1 sid ct,
         (pre.foldl (uploadStep roster ct) (t0, [])).2 ++ [uploadExcError d]) := by
    rw [List.foldl_append, List.foldl_cons,
      show (pre.foldl (uploadStep roster ct) (t0, ([] : List UploadError)))
        = ((pre.foldl (uploadStep roster ct) (t0, [])).1,
           (pre.foldl (uploadStep roster ct) (t0, [])).2) from rfl,
      uploadStep_failInsert_eq roster ct _ _ d sid hsid hgr]
  have hsplit2 : (pre ++ (d, SegOutcome.failAtSupersede) :: post).foldl
      (uploadStep roster ct) (t0, []) =
      post.foldl (uploadStep roster ct)
        ((pre.foldl (uploadStep roster ct) (t0, [])).1,
         (pre.foldl (uploadStep roster ct) (t0, [])).2 ++ [uploadExcError d]) := by
    rw [List.foldl_append, List.foldl_cons,
      show (pre.foldl (uploadStep roster ct) (t0, ([] : List UploadError)))
        = ((pre.foldl (uploadStep roster ct) (t0, [])).1,
           (pre.foldl (uploadStep roster ct) (t0, [])).2) from rfl,
      uploadStep_failSupersede_eq roster ct _ _ d sid hsid hgr]
  refine ⟨hsplit1, ?_, ?_, hsplit2⟩
  · rw [hsplit1]
    obtain ⟨extra, hex⟩ := uploadRun_errs_mono roster ct post
      (deleteOldDocs (pre.foldl (uploadStep roster ct) (t0, [])).1 sid ct,
       (pre.foldl (uploadStep roster ct) (t0, [])).2 ++ [uploadExcError d])
    rw [hex]
    simp
  · rw [hsplit1]
    unfold activeCount
    rw [activeRows_eq_filter_rowsFor,
      uploadRun_frame roster ct post sid _ _ hpost,
      rowsFor_deleteOldDocs_self, filter_active_flipCt]
    rfl

/-- Witness for C4 at a concrete input: the failed segment's student is left
with zero active rows while the following segment is still processed. -/
theorem C4_witness :
    activeCount ((([] : List (ExtractedDoc × SegOutcome)) ++
        (sampleDoc, SegOutcome.failAtInsert) :: [(sampleDoc2, SegOutcome.ok)]).foldl
        (uploadStep sampleRoster (pstr "06")) ([], [])).1 123456 (pstr "06") = 0 :=
  (C4_segment_failure_isolation sampleRoster (pstr "06") []
    [(sampleDoc2, SegOutcome.ok)] sampleDoc 123456 []
    (by decide) (by decide) (by decide)).2.2.1

/-! ## Claim C3: the overall batch status -/

/-- Claim C3 as stated is false at this input: a reclassification batch whose
single segment fails (invalid student id, so zero segments succeeded and the
database is untouched) is reported as `PARTIAL_SUCCESS`, although the claim
allows `PARTIAL_SUCCESS` only when at least one segment succeeded. -/
theorem C3_counterexample :
    (processReclassificationUpload sampleRoster emptyDbs true
        (Except.ok [(sampleDocUnknown, SegOutcome.ok)]) false).1 =
      UploadStatus.partialSuccess ∧
    (processReclassificationUpload sampleRoster emptyDbs true
        (Except.ok [(sampleDocUnknown, SegOutcome.ok)]) false).2.2.length = 1 ∧
    (processReclassificationUpload sampleRoster emptyDbs true
        (Except.ok [(sampleDocUnknown, SegOutcome.ok)]) false).2.1 = emptyDbs := by
  decide

/-- Claim C3 amended: the overall status is exactly one of
SUCCESS/PARTIAL_SUCCESS/WARNING/ERROR: WARNING when zero segments were
extracted, ERROR for a non-PDF upload or when an exception terminates the
batch before per-segment processing; otherwise the reclassification
orchestrator returns SUCCESS iff no per-segment error was recorded and
PARTIAL_SUCCESS iff at least one was — even when every segment failed — and
the IEP orchestrator returns SUCCESS iff its upload call raised no exception
(in a test run the call is skipped and the status is SUCCESS). -/
theorem C3_overall_status_amended (roster : Roster) (settings : Settings)
    (dbs : Databases) (testRun : Bool)
    (docs : List (ExtractedDoc × SegOutcome)) (idocs : List IepDoc)
    (msg : PyStr) (hne : docs ≠ []) (hne2 : idocs ≠ []) :
    ((processReclassificationUpload roster dbs false (.ok docs) testRun).1 =
        UploadStatus.error) ∧
    ((processReclassificationUpload roster dbs true (.error msg) testRun).1 =
        UploadStatus.error) ∧
    ((processReclassificationUpload roster dbs true (.ok []) testRun).1 =
        UploadStatus.warning) ∧
    ((processReclassificationUpload roster dbs true (.ok docs) testRun).1 =
        UploadStatus.success ↔
      (processReclassificationUpload roster dbs true (.ok docs) testRun).2.2 = []) ∧
    ((processReclassificationUpload roster dbs true (.ok docs) testRun).1 =
        UploadStatus.partialSuccess ↔
      (processReclassificationUpload roster dbs true (.ok docs) testRun).2.2 ≠ []) ∧
    ((processIepUpload settings roster dbs false (.ok idocs) testRun).1 =
        UploadStatus.error) ∧
    ((processIepUpload settings roster dbs true (.error msg) testRun).1 =
        UploadStatus.error) ∧
    ((processIepUpload settings roster dbs true (.ok []) testRun).1 =
        UploadStatus.warning) ∧
    ((processIepUpload settings roster dbs true (.ok idocs) true).1 =
        UploadStatus.success) ∧
    ((processIepUpload settings roster dbs true (.ok idocs) false).1 =
        UploadStatus.success ↔
      (uploadIepDocsToAeries settings roster idocs dbs.testDb false).2 = true) := by
  have hD : docs.isEmpty = false := by
    cases docs with
    | nil => exact absurd rfl hne
    | cons a l => rfl
  have hD2 : idocs.isEmpty = false := by
    cases idocs with
    | nil => exact absurd rfl hne2
    | cons a l => rfl
  have key : ∀ E : List UploadError,
      ((if E.isEmpty then UploadStatus.success else UploadStatus.partialSuccess) =
          UploadStatus.success ↔ E = []) ∧
      ((if E.isEmpty then UploadStatus.success else UploadStatus.partialSuccess) =
          UploadStatus.partialSuccess ↔ E ≠ []) := by
    intro E
    cases E with
    | nil => simp
    | cons a l => simp
  have keyb : ∀ b : Bool,
      ((if b then UploadStatus.success else UploadStatus.partialSuccess) =
        UploadStatus.success ↔ b = true) := by
    intro b; cases b <;> simp
  refine ⟨by simp [processReclassificationUpload],
          by simp [processReclassificationUpload],
          by simp [processReclassificationUpload],
          ?_, ?_,
          by simp [processIepUpload],
          by simp [processIepUpload],
          by simp [processIepUpload],
          by simp [processIepUpload, hD2],
          ?_⟩
  · simpa [processReclassificationUpload, hD] using
      (key (uploadDocsToAeries roster (pstr "RECLASS") docs
        (connTable dbs (getConnection testRun)) testRun).2).1
  · simpa [processReclassificationUpload, hD] using
      (key (uploadDocsToAeries roster (pstr "RECLASS") docs
        (connTable dbs (getConnection testRun)) testRun).2).2
  · simpa [processIepUpload, hD2, spedGetConnection, connTable] using
      keyb (uploadIepDocsToAeries settings roster idocs dbs.testDb false).2

/-- Witness for the amended C3 at a concrete input. -/
theorem C3_witness :
    (processReclassificationUpload sampleRoster emptyDbs false
        (Except.ok [(sampleDoc, SegOutcome.ok)]) false).1 = UploadStatus.error :=
  (C3_overall_status_amended sampleRoster defaultSettings emptyDbs false
    [(sampleDoc, SegOutcome.ok)] [sampleIepDoc] (pstr "boom")
    (by decide) (by decide)).1

/-! ## Claim C6: segment page sets -/

/-- Every page of every segment cut from boundaries bounded below by `b0` is
itself bounded below by `b0`. -/
theorem segmentRanges_mem_ge (bs : List Nat) (total : Nat) (b0 : Nat)
    (hb : ∀ b ∈ bs, b0 ≤ b) :
    ∀ s ∈ segmentRanges bs total, ∀ p ∈ s, b0 ≤ p := by
  induction bs with
  | nil => intro s hs; cases hs
  | cons b rest ih =>
    cases rest with
    | nil =>
      intro s hs p hp
      have hseq : s = pageRange b total := List.mem_singleton.mp hs
      subst hseq
      obtain ⟨i, hi, hpeq⟩ := List.mem_range'.mp hp
      have hbb := hb b (List.mem_cons_self _ _)
      omega
    | cons b' rest' =>
      intro s hs p hp
      rcases List.mem_cons.mp hs with hEq | hs'
      · subst hEq
        obtain ⟨i, hi, hpeq⟩ := List.mem_range'.mp hp
        have hbb := hb b (List.mem_cons_self _ _)
        omega
      · exact ih (fun x hx => hb x (List.mem_cons_of_mem b hx)) s hs' p hp

/-- With strictly increasing boundary pages the segments are pairwise
disjoint. -/
theorem segmentRanges_pairwise_disjoint (bs : List Nat) (total : Nat)
    (hsort : bs.Pairwise (· < ·)) :
    (segmentRanges bs total).Pairwise List.Disjoint := by
  induction bs with
  | nil => exact List.Pairwise.nil
  | cons b rest ih =>
    cases rest with
    | nil => exact List.pairwise_singleton _ _
    | cons b' rest' =>
      have htail : (b' :: rest').Pairwise (· < ·) := (List.pairwise_cons.mp hsort).2
      refine List.Pairwise.cons ?_ (ih htail)
      intro s' hs' a ha ha'
      obtain ⟨i, hi, haeq⟩ := List.mem_range'.mp ha
      have hge : ∀ x ∈ b' :: rest', b' ≤ x := by
        intro x hx
        rcases List.mem_cons.mp hx with hEq | hx'
        · omega
        · exact Nat.le_of_lt ((List.pairwise_cons.mp htail).1 x hx')
      have := segmentRanges_mem_ge (b' :: rest') total b' hge s' hs' a ha'
      omega

/-- Sum of the segment lengths of a nonempty sorted boundary list. -/
theorem segmentRanges_sum_eq (bs : List Nat) :
    ∀ (b total : Nat), (b :: bs).Pairwise (· < ·) → (∀ x ∈ b :: bs, x ≤ total) →
    ((segmentRanges (b :: bs) total).map List.length).sum = total - b := by
  induction bs with
  | nil =>
    intro b total _ hle
    have := hle b (List.mem_cons_self _ _)
    simp [segmentRanges, pageRange]
  | cons b' rest ih =>
    intro b total hsort hle
    have htail : (b' :: rest).Pairwise (· < ·) := (List.pairwise_cons.mp hsort).2
    have hlt : b < b' := (List.pairwise_cons.mp hsort).1 b' (List.mem_cons_self _ _)
    have hle' : ∀ x ∈ b' :: rest, x ≤ total :=
      fun x hx => hle x (List.mem_cons_of_mem b hx)
    have hb't : b' ≤ total := hle' b' (List.mem_cons_self _ _)
    have hrec := ih b' total htail hle'
    rw [show segmentRanges (b :: b' :: rest) total
        = pageRange b b' :: segmentRanges (b' :: rest) total from rfl]
    rw [List.map_cons, List.sum_cons, hrec]
    simp only [pageRange, List.length_range']
    omega

theorem segmentRanges_sum_le (bs : List Nat) (total : Nat)
    (hsort : bs.Pairwise (· < ·)) (hle : ∀ b ∈ bs, b ≤ total) :
    ((segmentRanges bs total).map List.length).sum ≤ total := by
  cases bs with
  | nil => exact Nat.zero_le total
  | cons b rest =>
    rw [segmentRanges_sum_eq rest b total hsort hle]
    omega

/-- Splitting a list by a Boolean predicate preserves its length. -/
theorem length_filter_add_length_filter_not (l : List Nat) (q : Nat → Bool) :
    (l.filter q).length + (l.filter (fun p => !(q p))).length = l.length := by
  induction l with
  | nil => rfl
  | cons a l ihl =>
    rw [List.filter_cons, List.filter_cons]
    cases hq : q a <;> simp [hq] <;> omega

/-- Pages counted once per distinct student id never exceed the page count. -/
theorem sum_counts_le (extractId : Nat → Option PyStr) :
    ∀ (sids : List PyStr), sids.Nodup → ∀ (l : List Nat),
    (sids.map (fun sid =>
      (l.filter (fun p => extractId p == some sid)).length)).sum ≤ l.length := by
  intro sids
  induction sids with
  | nil => intro _ l; simp
  | cons s rest ih =>
    intro hnd l
    rw [List.map_cons, List.sum_cons]
    have hsub : ∀ sid ∈ rest,
        (l.filter (fun p => extractId p == some sid)).length
          = ((l.filter (fun p => !(extractId p == some s))).filter
              (fun p => extractId p == some sid)).length := by
      intro sid hsid
      have hne : sid ≠ s := by
        intro hEq; subst hEq; exact (List.nodup_cons.mp hnd).1 hsid
      rw [List.filter_filter]
      apply congrArg List.length
      apply List.filter_congr
      intro p _
      by_cases hm : (extractId p == some sid) = true
      · have hps : extractId p = some sid := by simpa using hm
        have hns : (extractId p == some s) = false := by simp [hps, hne]
        simp [hm, hns]
      · have hm' : (extractId p == some sid) = false := by
          rwa [Bool.not_eq_true] at hm
        simp [hm']
    have hsum : (rest.map (fun sid =>
        (l.filter (fun p => extractId p == some sid)).length)).sum
        = (rest.map (fun sid =>
            ((l.filter (fun p => !(extractId p == some s))).filter
              (fun p => extractId p == some sid)).length)).sum := by
      exact congrArg List.sum (List.map_congr_left hsub)
    rw [hsum]
    have h1 := ih (List.nodup_cons.mp hnd).2 (l.filter (fun p => !(extractId p == some s)))
    have h2 := length_filter_add_length_filter_not l (fun p => extractId p == some s)
    omega

/-- Claim C6: in both boundary modes the segments produced by the splitter
are pairwise disjoint as sets of page indices, and the sum of page counts
over all segments is at most the total number of pages in the input. -/
theorem C6_segments_disjoint_and_bounded (isHeader : Nat → Bool)
    (extractId : Nat → Option PyStr) (totalPages : Nat) :
    (iepSegments isHeader totalPages).Pairwise List.Disjoint ∧
    ((iepSegments isHeader totalPages).map List.length).sum ≤ totalPages ∧
    (reclassSegments extractId totalPages).Pairwise List.Disjoint ∧
    ((reclassSegments extractId totalPages).map List.length).sum ≤ totalPages := by
  have hsort : (iepBoundaryPages isHeader totalPages).Pairwise (· < ·) :=
    List.Pairwise.filter isHeader (List.pairwise_lt_range totalPages)
  have hle : ∀ b ∈ iepBoundaryPages isHeader totalPages, b ≤ totalPages := by
    intro b hb
    have := List.mem_range.mp (List.mem_of_mem_filter hb)
    omega
  refine ⟨segmentRanges_pairwise_disjoint _ _ hsort,
          segmentRanges_sum_le _ _ hsort hle, ?_, ?_⟩
  · unfold reclassSegments
    rw [List.pairwise_map]
    have hnd : (reclassStudentIds extractId totalPages).Nodup := List.nodup_dedup _
    refine List.Pairwise.imp ?_ hnd
    intro s s' hne a ha ha'
    have h1 : extractId a = some s := by
      simpa using (List.mem_filter.mp ha).2
    have h2 : extractId a = some s' := by
      simpa using (List.mem_filter.mp ha').2
    rw [h1] at h2
    exact hne (Option.some_inj.mp h2)
  · unfold reclassSegments pagesForStudent
    rw [List.map_map]
    have := sum_counts_le extractId (reclassStudentIds extractId totalPages)
      (List.nodup_dedup _) (List.range totalPages)
    simpa [Function.comp, List.length_range] using this

/-! ## Claim C8: date normalization -/

/-- Claim C8: date normalization maps `"3/5/2024"` to `"2024-03-05"`
(zero-padding month and day and reordering to YYYY-MM-DD); for every string
on which the three-way unpack of `split('/')` fails it returns the input with
every slash replaced by a hyphen; and, the embedding being a total function
whose only fallible step is that unpack (guarded by the bare `except`), it
never raises for any input string. -/
theorem C8_date_normalization :
    normalizeIepDate (pstr "3/5/2024") = pstr "2024-03-05" ∧
    ∀ s : PyStr, (pySplitOn '/' s).length ≠ 3 →
      normalizeIepDate s = slashToHyphen s := by
  refine ⟨by decide, ?_⟩
  intro s hs
  by_cases hu : s = pstr "unknown_date"
  · subst hu
    decide
  · unfold normalizeIepDate
    rw [if_pos hu]
    rcases h : pySplitOn '/' s with _ | ⟨a, _ | ⟨b, _ | ⟨c, _ | ⟨d, rest⟩⟩⟩⟩
    · rfl
    · rfl
    · rfl
    · rw [h] at hs
      exact absurd rfl hs
    · rfl

/-! ## Claim C9: display-name validation -/

/-- Claim C9: a candidate display name is accepted if and only if its length
is between 3 and 50, it contains no digit, and it splits on whitespace into
at least two tokens each consisting only of alphabetic characters;
`"Room 204"` is rejected and `"Maria Lopez"` is accepted; and a page whose
candidates are all rejected gets the display name `"Unknown"` (the filename
fallback runs only afterwards). -/
theorem C9_display_name_validation :
    (∀ name : PyStr, isValidStudentName name = true ↔
      (3 ≤ name.length ∧ name.length ≤ 50 ∧
       (∀ c ∈ name, ¬ c.isDigit = true) ∧
       2 ≤ (pySplitWs name).length ∧
       ∀ w ∈ pySplitWs name, w.all Char.isAlpha = true)) ∧
    isValidStudentName (pstr "Room 204") = false ∧
    isValidStudentName (pstr "Maria Lopez") = true ∧
    (∀ candidates : List PyStr,
      (∀ c ∈ candidates, isValidStudentName c = false) →
      extractDisplayName candidates = pstr "Unknown") := by
  refine ⟨?_, by decide, by decide, ?_⟩
  · intro name
    unfold isValidStudentName
    constructor
    · intro h
      simp only [Bool.and_eq_true, decide_eq_true_eq] at h
      obtain ⟨⟨⟨⟨h1, h2⟩, h3⟩, h4⟩, h5⟩ := h
      refine ⟨by omega, h2, ?_, h4, ?_⟩
      · intro c hc hd
        rw [Bool.not_eq_true'] at h3
        have : name.any Char.isDigit = true := List.any_eq_true.mpr ⟨c, hc, hd⟩
        rw [this] at h3
        cases h3
      · intro w hw
        have hval := (List.all_eq_true.mp h5) w hw
        unfold pyIsAlphaStr at hval
        exact ((Bool.and_eq_true _ _).mp hval).2
    · intro h
      obtain ⟨h1, h2, h3, h4, h5⟩ := h
      simp only [Bool.and_eq_true, decide_eq_true_eq]
      refine ⟨⟨⟨⟨by omega, h2⟩, ?_⟩, h4⟩, ?_⟩
      · rw [Bool.not_eq_true']
        rw [List.any_eq_false]
        intro c hc
        exact h3 c hc
      · rw [List.all_eq_true]
        intro w hw
        unfold pyIsAlphaStr
        rw [Bool.and_eq_true]
        refine ⟨?_, h5 w hw⟩
        have hne : w ≠ [] := by
          unfold pySplitWs at hw
          have hmem := (List.mem_filter.mp hw).2
          simpa using hmem
        cases w with
        | nil => exact absurd rfl hne
        | cons a l => rfl
  · intro candidates hall
    unfold extractDisplayName
    have hfind : candidates.find? isValidStudentName = none := by
      rw [List.find?_eq_none]
      intro c hc
      rw [hall c hc]
      exact Bool.false_ne_true
    rw [hfind]

/-! ## Claim C10: test runs still write -/

/-- Claim C10: for a non-empty batch, invoking the reclassification upload
with `test_run=true` still executes both the supersession soft-delete and the
row insert — the flag only selects which database connection is used (the
test database's table is the one written, the production table untouched) —
and invoking the IEP list upload with `test_run=true` skips the insert but
still executes the supersession soft-delete; so a test run does not leave the
document table unchanged (for the IEP upload, whenever the student had an
active document of the category). -/
theorem C10_test_run_effects (roster : Roster) (settings : Settings)
    (dbs : Databases) (docs : List (ExtractedDoc × SegOutcome)) (dt : PyStr)
    (t : DocTable) (d : ExtractedDoc) (sid : Nat) (di : IepDoc) (sid2 : Nat)
    (hne : docs ≠ [])
    (hsid : docSid d = some sid)
    (hgr : getStudentGrade roster sid ≠ ([] : PyStr))
    (hsid2 : pyToNat? di.stuId = some sid2)
    (hgr2 : getStudentGrade roster sid2 ≠ ([] : PyStr))
    (hdate : isIepDateShape di.iepDate = true) :
    (uploadDocsToAeries roster dt docs t true =
      uploadDocsToAeries roster dt docs t false) ∧
    ((processReclassificationUpload roster dbs true (.ok docs) true).2.1.prodDb
        = dbs.prodDb) ∧
    ((processReclassificationUpload roster dbs true (.ok docs) true).2.1.testDb
        = (uploadDocsToAeries roster (pstr "RECLASS") docs dbs.testDb true).1) ∧
    ((uploadDocsToAeries roster dt [(d, SegOutcome.ok)] t true).1 =
      insertDoc (deleteOldDocs t sid (categoryCodes dt))
        (mkDocRow sid (getNextSq t sid) (categoryCodes dt)
          (getStudentGrade roster sid) d)) ∧
    (uploadIepDocsToAeries settings roster [di] t true =
      (deleteOldDocs t sid2 settings.IEP_AT_A_GLANCE_DOCUMENT_CODE, true)) ∧
    (activeCount t sid2 settings.IEP_AT_A_GLANCE_DOCUMENT_CODE ≠ 0 →
      deleteOldDocs t sid2 settings.IEP_AT_A_GLANCE_DOCUMENT_CODE ≠ t) := by
  have hD : docs.isEmpty = false := by
    cases docs with
    | nil => exact absurd rfl hne
    | cons a l => rfl
  have h3 : uploadDocsToAeries roster dt [(d, SegOutcome.ok)] t true
      = (insertDoc (deleteOldDocs t sid (categoryCodes dt))
          (mkDocRow sid (getNextSq t sid) (categoryCodes dt)
            (getStudentGrade roster sid) d), []) := by
    rw [uploadDocsToAeries_def]
    rw [show ([(d, SegOutcome.ok)].foldl (uploadStep roster (categoryCodes dt))
        (t, ([] : List UploadError)))
        = uploadStep roster (categoryCodes dt) (t, []) (d, SegOutcome.ok) from rfl]
    exact uploadStep_ok_eq roster (categoryCodes dt) t [] d sid hsid hgr
  have h4 : uploadIepDocsToAeries settings roster [di] t true
      = (deleteOldDocs t sid2 settings.IEP_AT_A_GLANCE_DOCUMENT_CODE, true) := by
    unfold uploadIepDocsToAeries
    rw [show ([di].foldl (spedUploadStep settings roster true) (t, true))
        = spedUploadStep settings roster true (t, true) di from rfl]
    unfold spedUploadStep
    simp [hsid2, beq_eq_false_iff_ne.mpr hgr2, hdate]
  refine ⟨rfl,
    by simp [processReclassificationUpload, hD, getConnection, connTable, setConnTable],
    by simp [processReclassificationUpload, hD, getConnection, connTable, setConnTable],
    by rw [h3],
    h4, ?_⟩
  intro hact heq
  have hdel := activeRows_deleteOldDocs t sid2 settings.IEP_AT_A_GLANCE_DOCUMENT_CODE
  rw [heq] at hdel
  apply hact
  unfold activeCount
  rw [hdel]
  rfl

/-- Witness for C10 at a concrete input: a test-run IEP upload soft-deletes
the pre-existing active row. -/
theorem C10_witness :
    uploadIepDocsToAeries defaultSettings sampleRoster [sampleIepDoc]
        sampleIepTable true =
      (deleteOldDocs sampleIepTable 123456
        defaultSettings.IEP_AT_A_GLANCE_DOCUMENT_CODE, true) :=
  (C10_test_run_effects sampleRoster defaultSettings emptyDbs
    [(sampleDoc, SegOutcome.ok)] (pstr "RECLASS") sampleIepTable sampleDoc 123456
    sampleIepDoc 123456 (by decide) (by decide) (by decide) (by decide)
    (by decide) (by decide)).2.2.2.2.1
